import Mathlib

/-!
Verification development for the employee-assessment-system repository.

The repository's sources provide the shared types (`AssessmentProcessStatus`,
`StatusHistoryEntry`, DTOs in types.ts), the API helpers (`createApiResponse`,
`createErrorResponse`, `authenticateUser` in lib/api-utils.ts, `requireAuth`
in lib/auth-utils.ts) and the Astro pages (goals-definition page guard).
The ProcessLifecycle transition operation itself is described by the design
document but its implementation is not among the given sources; it is
modelled here from the spec where the doc comments say so.
-/

namespace EAS

/-- The closed status enumeration from types.ts (`AssessmentProcessStatus`):
`in_definition`, `in_self_assessment`, `awaiting_manager_assessment`, `completed`. -/
inductive AssessmentProcessStatus
  | in_definition
  | in_self_assessment
  | awaiting_manager_assessment
  | completed
deriving DecidableEq, Repr

/-- The `changedBy` identity snapshot of a history entry: id plus display name. -/
structure ChangedBy where
  id : String
  name : String
deriving DecidableEq, Repr

/-- `StatusHistoryEntry` from types.ts: status, timestamp, and the identity
snapshot of the user who made the change. Timestamps are modelled as `Nat`. -/
structure StatusHistoryEntry where
  status : AssessmentProcessStatus
  changedAt : Nat
  changedBy : ChangedBy
deriving DecidableEq, Repr

/-- The per-process mutable state owned by ProcessLifecycle: the current
status and the append-only history sequence. -/
structure ProcessState where
  status : AssessmentProcessStatus
  history : List StatusHistoryEntry
deriving DecidableEq, Repr

/-- Actor roles; the spec's authorization policy maps
`(currentStatus, requestedStatus, actorRole)` to allow or deny. -/
inductive Role
  | manager
  | employee
deriving DecidableEq, Repr

/-- The acting user supplied with every transition request. -/
structure ActingUser where
  id : String
  name : String
  role : Role
deriving DecidableEq, Repr

/-- An externalized authorization policy:
`(currentStatus, requestedStatus, actorRole) -> allow/deny`. -/
def TransitionPolicy : Type :=
  AssessmentProcessStatus → AssessmentProcessStatus → Role → Bool

/-- The error taxonomy of the design: four domain errors plus a generic
persistence failure. -/
inductive TransitionError
  | NotFound
  | Unauthorized
  | InvalidTransition
  | StaleState
  | PersistenceFailure
deriving DecidableEq, Repr

/-- The immediate successor in the fixed order
`in_definition → in_self_assessment → awaiting_manager_assessment → completed`;
`completed` is terminal and has no successor. -/
def nextStatus : AssessmentProcessStatus → Option AssessmentProcessStatus
  | .in_definition => some .in_self_assessment
  | .in_self_assessment => some .awaiting_manager_assessment
  | .awaiting_manager_assessment => some .completed
  | .completed => none

/-- The history entry recorded for a successful transition: the new status,
the current timestamp, and the acting user's identity snapshot. -/
def newEntry (requestedStatus : AssessmentProcessStatus) (now : Nat)
    (actingUser : ActingUser) : StatusHistoryEntry :=
  { status := requestedStatus, changedAt := now,
    changedBy := { id := actingUser.id, name := actingUser.name } }

/-- Modelled from the spec: the persistence collaborator's atomic
update-status-and-append-history step (`conditionalUpdateStatus` plus
`appendHistory`). Both sub-steps must succeed together or neither takes
effect; `updateOk` and `appendOk` say whether each underlying storage
action succeeds. On any failure no partial state is produced. -/
def applyTransition (p : ProcessState) (requestedStatus : AssessmentProcessStatus)
    (entry : StatusHistoryEntry) (updateOk appendOk : Bool) : Option ProcessState :=
  if updateOk && appendOk then
    some { status := requestedStatus, history := p.history ++ [entry] }
  else
    none

/-- Modelled from the spec: the ProcessLifecycle operation
`transition(processId, currentStatus, requestedStatus, actingUser)`, whose
implementation is not among the given sources (types.ts only declares the
DTOs). `proc?` is the persisted record resolved from the process id (`none`
means the id does not resolve). Checks, in order: existence (`NotFound`),
the authorization policy (`Unauthorized`, consulted before any state
mutation), legality of the target (`InvalidTransition` unless the requested
status is the immediate successor of the supplied current status), and the
optimistic-concurrency check (`StaleState` unless the supplied current
status equals the persisted one). The conditional update-and-append then
either succeeds, yielding the new entry and the new persisted state, or
fails as `PersistenceFailure` leaving state unchanged. The second component
of the result is the persisted state after the attempt. -/
def transitionOnProcess (policy : TransitionPolicy) (p : ProcessState)
    (updateOk appendOk : Bool)
    (currentStatus requestedStatus : AssessmentProcessStatus)
    (actingUser : ActingUser) (now : Nat) :
    Except TransitionError StatusHistoryEntry × Option ProcessState :=
  if policy currentStatus requestedStatus actingUser.role = false then
    (Except.error TransitionError.Unauthorized, some p)
  else if nextStatus currentStatus ≠ some requestedStatus then
    (Except.error TransitionError.InvalidTransition, some p)
  else if p.status ≠ currentStatus then
    (Except.error TransitionError.StaleState, some p)
  else
    match applyTransition p requestedStatus (newEntry requestedStatus now actingUser)
      updateOk appendOk with
    | some q => (Except.ok (newEntry requestedStatus now actingUser), some q)
    | none => (Except.error TransitionError.PersistenceFailure, some p)

def transitionRun (policy : TransitionPolicy) (proc? : Option ProcessState)
    (updateOk appendOk : Bool)
    (currentStatus requestedStatus : AssessmentProcessStatus)
    (actingUser : ActingUser) (now : Nat) :
    Except TransitionError StatusHistoryEntry × Option ProcessState :=
  match proc? with
  | none => (Except.error TransitionError.NotFound, none)
  | some p =>
    transitionOnProcess policy p updateOk appendOk currentStatus requestedStatus
      actingUser now

/-- A process created now starts at `in_definition` with a single initial
history entry carrying that status (the spec's scenario counts the initial
`in_definition` entry in the history length). -/
def mkProcess (createdBy : ChangedBy) (now : Nat) : ProcessState :=
  { status := .in_definition,
    history := [{ status := .in_definition, changedAt := now, changedBy := createdBy }] }

/-- States reachable from process creation by any sequence of successful
transition operations. -/
inductive Reachable (policy : TransitionPolicy) : ProcessState → Prop
  | init (createdBy : ChangedBy) (now : Nat) : Reachable policy (mkProcess createdBy now)
  | step (p q : ProcessState) (updateOk appendOk : Bool)
      (currentStatus requestedStatus : AssessmentProcessStatus)
      (actingUser : ActingUser) (now : Nat) (e : StatusHistoryEntry) :
      Reachable policy p →
      transitionRun policy (some p) updateOk appendOk currentStatus requestedStatus
        actingUser now = (Except.ok e, some q) →
      Reachable policy q

/-- Characterization of a successful transition run on an existing process:
it succeeds exactly when the policy allows it, the requested status is the
immediate successor of the supplied current status, the supplied current
status matches the persisted one, and both persistence sub-steps succeed;
the returned entry and post-state are then fixed. -/
theorem transitionRun_ok_iff (policy : TransitionPolicy) (p : ProcessState)
    (updateOk appendOk : Bool) (cur req : AssessmentProcessStatus)
    (u : ActingUser) (now : Nat) (e : StatusHistoryEntry) (post : Option ProcessState) :
    transitionRun policy (some p) updateOk appendOk cur req u now = (Except.ok e, post) ↔
      policy cur req u.role = true ∧ nextStatus cur = some req ∧ p.status = cur ∧
        updateOk = true ∧ appendOk = true ∧ e = newEntry req now u ∧
        post = some { status := req, history := p.history ++ [newEntry req now u] } := by
  show transitionOnProcess policy p updateOk appendOk cur req u now = (Except.ok e, post) ↔ _
  cases updateOk <;> cases appendOk <;>
    unfold transitionOnProcess applyTransition <;>
    split_ifs with h1 h2 h3 <;> (simp_all; try aesop)

/-- Any failing transition run leaves the persisted state exactly as it
was before the attempt. -/
theorem transitionRun_error_post (policy : TransitionPolicy) (proc? : Option ProcessState)
    (updateOk appendOk : Bool) (cur req : AssessmentProcessStatus)
    (u : ActingUser) (now : Nat) (err : TransitionError) (post : Option ProcessState) :
    transitionRun policy proc? updateOk appendOk cur req u now = (Except.error err, post) →
    post = proc? := by
  cases proc? with
  | none =>
    intro h
    simp only [transitionRun] at h
    exact (congrArg Prod.snd h).symm
  | some p =>
    show transitionOnProcess policy p updateOk appendOk cur req u now =
      (Except.error err, post) → post = some p
    cases updateOk <;> cases appendOk <;>
      unfold transitionOnProcess applyTransition <;>
      split_ifs with h1 h2 h3 <;> simp_all

/-- A denied policy makes the transition fail as `Unauthorized`, with the
persisted state untouched. -/
theorem transitionOnProcess_unauthorized (policy : TransitionPolicy) (p : ProcessState)
    (updateOk appendOk : Bool) (cur req : AssessmentProcessStatus)
    (u : ActingUser) (now : Nat) (hpol : policy cur req u.role = false) :
    transitionOnProcess policy p updateOk appendOk cur req u now =
      (Except.error TransitionError.Unauthorized, some p) := by
  unfold transitionOnProcess
  simp [hpol]

/-- An allowed but illegal target (not the immediate successor) fails as
`InvalidTransition`, with the persisted state untouched. -/
theorem transitionOnProcess_invalid (policy : TransitionPolicy) (p : ProcessState)
    (updateOk appendOk : Bool) (cur req : AssessmentProcessStatus)
    (u : ActingUser) (now : Nat) (hpol : policy cur req u.role = true)
    (hnext : nextStatus cur ≠ some req) :
    transitionOnProcess policy p updateOk appendOk cur req u now =
      (Except.error TransitionError.InvalidTransition, some p) := by
  unfold transitionOnProcess
  simp [hpol, hnext]

/-- A legal, authorized request whose supplied current status does not match
the persisted one fails as `StaleState`, with the persisted state untouched. -/
theorem transitionOnProcess_stale (policy : TransitionPolicy) (p : ProcessState)
    (updateOk appendOk : Bool) (cur req : AssessmentProcessStatus)
    (u : ActingUser) (now : Nat) (hpol : policy cur req u.role = true)
    (hnext : nextStatus cur = some req) (hcur : p.status ≠ cur) :
    transitionOnProcess policy p updateOk appendOk cur req u now =
      (Except.error TransitionError.StaleState, some p) := by
  unfold transitionOnProcess
  simp [hpol, hnext, hcur]

/-- When all validations pass but a persistence sub-step fails, the run
fails as `PersistenceFailure` with the persisted state untouched. -/
theorem transitionOnProcess_persistenceFailure (policy : TransitionPolicy) (p : ProcessState)
    (updateOk appendOk : Bool) (cur req : AssessmentProcessStatus)
    (u : ActingUser) (now : Nat) (hpol : policy cur req u.role = true)
    (hnext : nextStatus cur = some req) (hcur : p.status = cur)
    (hfail : (updateOk && appendOk) = false) :
    transitionOnProcess policy p updateOk appendOk cur req u now =
      (Except.error TransitionError.PersistenceFailure, some p) := by
  unfold transitionOnProcess applyTransition
  simp [hpol, hnext, hcur, hfail]

/-- A policy that allows every transition; used to instantiate theorems. -/
def allowAll : TransitionPolicy := fun _ _ _ => true

/-- A policy that denies every transition; used to instantiate theorems. -/
def denyAll : TransitionPolicy := fun _ _ _ => false

/-- A concrete manager actor used to instantiate theorems. -/
def demoUser : ActingUser := { id := "u1", name := "Manager One", role := Role.manager }

/-- A concrete freshly created process used to instantiate theorems. -/
def demoProcess : ProcessState := mkProcess { id := "u0", name := "Admin" } 0

/-- C1: a transition request is accepted only when the requested status is
the immediate successor of the (supplied and persisted) current status in
the fixed order; any other target — backward move, skip, resubmission of
the same status, or any request while the process is `completed` — fails
with `InvalidTransition` (for an existing process and an authorized actor,
the earlier checks in the run). -/
theorem C1_immediate_successor_only (policy : TransitionPolicy) (p : ProcessState)
    (updateOk appendOk : Bool) (cur req : AssessmentProcessStatus)
    (u : ActingUser) (now : Nat) :
    (∀ e post, transitionRun policy (some p) updateOk appendOk cur req u now =
        (Except.ok e, post) →
        nextStatus cur = some req ∧ nextStatus p.status = some req)
    ∧ (policy cur req u.role = true → nextStatus cur ≠ some req →
        transitionRun policy (some p) updateOk appendOk cur req u now =
          (Except.error TransitionError.InvalidTransition, some p))
    ∧ (policy cur req u.role = true → cur = AssessmentProcessStatus.completed →
        transitionRun policy (some p) updateOk appendOk cur req u now =
          (Except.error TransitionError.InvalidTransition, some p)) := by
  refine ⟨?_, ?_, ?_⟩
  · intro e post h
    rcases (transitionRun_ok_iff policy p updateOk appendOk cur req u now e post).mp h with
      ⟨_, hnext, hcur, _⟩
    exact ⟨hnext, hcur ▸ hnext⟩
  · intro hpol hnext
    exact transitionOnProcess_invalid policy p updateOk appendOk cur req u now hpol hnext
  · intro hpol hcur
    subst hcur
    exact transitionOnProcess_invalid policy p updateOk appendOk _ req u now hpol (by
      simp [nextStatus])

/-- Witness for C1 at a concrete input: a process at `completed` rejects a
request for `in_definition` with `InvalidTransition`, leaving state as it was. -/
theorem C1_immediate_successor_only_witness :
    transitionRun allowAll (some { status := AssessmentProcessStatus.completed, history := [] })
        true true AssessmentProcessStatus.completed AssessmentProcessStatus.in_definition
        demoUser 7 =
      (Except.error TransitionError.InvalidTransition,
        some { status := AssessmentProcessStatus.completed, history := [] }) :=
  (C1_immediate_successor_only allowAll
      { status := AssessmentProcessStatus.completed, history := [] }
      true true AssessmentProcessStatus.completed AssessmentProcessStatus.in_definition
      demoUser 7).2.2 rfl rfl

/-- C4: the transition operation is all-or-nothing: whenever it returns any
error — `PersistenceFailure` during the update-and-append step included —
the persisted state (status and history both) is exactly as it was before
the attempt; and a persistence sub-step failure after all validations pass
surfaces precisely as `PersistenceFailure`. -/
theorem C4_all_or_nothing (policy : TransitionPolicy) (proc? : Option ProcessState)
    (updateOk appendOk : Bool) (cur req : AssessmentProcessStatus)
    (u : ActingUser) (now : Nat) :
    (∀ err post, transitionRun policy proc? updateOk appendOk cur req u now =
        (Except.error err, post) → post = proc?)
    ∧ (∀ p : ProcessState, proc? = some p → policy cur req u.role = true →
        nextStatus cur = some req → p.status = cur → (updateOk && appendOk) = false →
        transitionRun policy proc? updateOk appendOk cur req u now =
          (Except.error TransitionError.PersistenceFailure, some p)) := by
  constructor
  · intro err post h
    exact transitionRun_error_post policy proc? updateOk appendOk cur req u now err post h
  · intro p hproc hpol hnext hcur hfail
    subst hproc
    exact transitionOnProcess_persistenceFailure policy p updateOk appendOk cur req u now
      hpol hnext hcur hfail

/-- Witness for C4 at a concrete input: a valid, authorized request whose
history-append step fails returns `PersistenceFailure` and leaves the stored
status and history exactly as before. -/
theorem C4_all_or_nothing_witness :
    transitionRun allowAll (some demoProcess) true false
        AssessmentProcessStatus.in_definition AssessmentProcessStatus.in_self_assessment
        demoUser 3 =
      (Except.error TransitionError.PersistenceFailure, some demoProcess) :=
  (C4_all_or_nothing allowAll (some demoProcess) true false
      AssessmentProcessStatus.in_definition AssessmentProcessStatus.in_self_assessment
      demoUser 3).2 demoProcess rfl rfl rfl rfl rfl

/-- C5: an acting user whom the policy denies for the specific transition
always receives `Unauthorized` (for an existing process), and the stored
status and history are unchanged: the policy is consulted before any state
mutation, for every outcome of the persistence collaborator. -/
theorem C5_unauthorized_unchanged (policy : TransitionPolicy) (p : ProcessState)
    (updateOk appendOk : Bool) (cur req : AssessmentProcessStatus)
    (u : ActingUser) (now : Nat) (hpol : policy cur req u.role = false) :
    transitionRun policy (some p) updateOk appendOk cur req u now =
      (Except.error TransitionError.Unauthorized, some p) :=
  transitionOnProcess_unauthorized policy p updateOk appendOk cur req u now hpol

/-- Witness for C5 at a concrete input: under the deny-all policy a legal
forward request still fails as `Unauthorized` with the state untouched. -/
theorem C5_unauthorized_unchanged_witness :
    transitionRun denyAll (some demoProcess) true true
        AssessmentProcessStatus.in_definition AssessmentProcessStatus.in_self_assessment
        demoUser 3 =
      (Except.error TransitionError.Unauthorized, some demoProcess) :=
  C5_unauthorized_unchanged denyAll demoProcess true true
    AssessmentProcessStatus.in_definition AssessmentProcessStatus.in_self_assessment
    demoUser 3 rfl

/-- C2: at every state reachable by any sequence of transition operations
the history is non-empty and its last entry's status equals the current
status; moreover every successful transition appends exactly one entry
carrying the new status and the acting user's id and display name. -/
theorem C2_history_tracks_status (policy : TransitionPolicy) (p : ProcessState)
    (h : Reachable policy p) :
    (p.history ≠ [] ∧
      p.history.getLast?.map StatusHistoryEntry.status = some p.status)
    ∧ (∀ (updateOk appendOk : Bool) (cur req : AssessmentProcessStatus)
        (u : ActingUser) (now : Nat) (e : StatusHistoryEntry) (q : ProcessState),
        transitionRun policy (some p) updateOk appendOk cur req u now =
          (Except.ok e, some q) →
        q.history = p.history ++ [newEntry req now u] ∧ q.status = req ∧
          e.status = req ∧ e.changedBy = { id := u.id, name := u.name }) := by
  constructor
  · induction h with
    | init createdBy now =>
      simp [mkProcess]
    | step p q updateOk appendOk cur req u now e hr hrun ih =>
      rcases (transitionRun_ok_iff policy p updateOk appendOk cur req u now e
          (some q)).mp hrun with ⟨_, _, _, _, _, _, hpost⟩
      rcases Option.some.inj hpost with rfl
      refine ⟨by simp, ?_⟩
      simp [newEntry]
  · intro updateOk appendOk cur req u now e q hrun
    rcases (transitionRun_ok_iff policy p updateOk appendOk cur req u now e
        (some q)).mp hrun with ⟨_, _, _, _, _, he, hpost⟩
    rcases Option.some.inj hpost with rfl
    subst he
    exact ⟨rfl, rfl, rfl, rfl⟩

/-- Witness for C2 at a concrete input: the freshly created demo process is
reachable and satisfies the history invariant. -/
theorem C2_history_tracks_status_witness :
    demoProcess.history ≠ [] ∧
      demoProcess.history.getLast?.map StatusHistoryEntry.status = some demoProcess.status :=
  (C2_history_tracks_status allowAll demoProcess
      (Reachable.init { id := "u0", name := "Admin" } 0)).1

/-- C3: of two serialized transition attempts on the same process that both
expect `in_definition` and request `in_self_assessment`, exactly the first
succeeds and the second observes `StaleState`; in general a run succeeds
only when its supplied expected current status matches the persisted status
at the moment of application. -/
theorem C3_optimistic_concurrency (policy : TransitionPolicy) (p : ProcessState)
    (u1 u2 : ActingUser) (now1 now2 : Nat)
    (hstatus : p.status = AssessmentProcessStatus.in_definition)
    (hpol1 : policy AssessmentProcessStatus.in_definition
      AssessmentProcessStatus.in_self_assessment u1.role = true)
    (hpol2 : policy AssessmentProcessStatus.in_definition
      AssessmentProcessStatus.in_self_assessment u2.role = true) :
    (∃ e q, transitionRun policy (some p) true true
        AssessmentProcessStatus.in_definition AssessmentProcessStatus.in_self_assessment
        u1 now1 = (Except.ok e, some q)
      ∧ transitionRun policy (some q) true true
          AssessmentProcessStatus.in_definition AssessmentProcessStatus.in_self_assessment
          u2 now2 =
        (Except.error TransitionError.StaleState, some q))
    ∧ (∀ (p' : ProcessState) (updateOk appendOk : Bool)
        (cur req : AssessmentProcessStatus) (u : ActingUser) (now : Nat)
        (e : StatusHistoryEntry) (post : Option ProcessState),
        transitionRun policy (some p') updateOk appendOk cur req u now =
          (Except.ok e, post) → p'.status = cur) := by
  constructor
  · refine ⟨newEntry AssessmentProcessStatus.in_self_assessment now1 u1,
      { status := AssessmentProcessStatus.in_self_assessment,
        history := p.history ++ [newEntry AssessmentProcessStatus.in_self_assessment now1 u1] },
      ?_, ?_⟩
    · exact (transitionRun_ok_iff policy p true true _ _ u1 now1 _ _).mpr
        ⟨hpol1, rfl, hstatus, rfl, rfl, rfl, rfl⟩
    · exact transitionOnProcess_stale policy _ true true _ _ u2 now2 hpol2 rfl (by simp)
  · intro p' updateOk appendOk cur req u now e post hrun
    exact ((transitionRun_ok_iff policy p' updateOk appendOk cur req u now e post).mp
      hrun).2.2.1

/-- Witness for C3 at a concrete input: on the demo process the first of two
in_definition→in_self_assessment attempts succeeds and the second, applied
to the resulting state, receives `StaleState`. -/
theorem C3_optimistic_concurrency_witness :
    ∃ e q, transitionRun allowAll (some demoProcess) true true
        AssessmentProcessStatus.in_definition AssessmentProcessStatus.in_self_assessment
        demoUser 1 = (Except.ok e, some q)
      ∧ transitionRun allowAll (some q) true true
          AssessmentProcessStatus.in_definition AssessmentProcessStatus.in_self_assessment
          demoUser 2 =
        (Except.error TransitionError.StaleState, some q) :=
  (C3_optimistic_concurrency allowAll demoProcess demoUser demoUser 1 2 rfl rfl rfl).1

/-- The spec's invariant that `changedAt` values are non-decreasing along a
history sequence, as a chain of adjacent comparisons. -/
def changedAtSorted (l : List StatusHistoryEntry) : Prop :=
  l.Chain' fun a b => a.changedAt ≤ b.changedAt

/-- C7: history timestamps are non-decreasing from first to last entry: the
invariant holds at creation and is preserved by every successful transition,
given that the appended entry's timestamp `now` is not earlier than the
timestamps already recorded. -/
theorem C7_changedAt_nondecreasing (policy : TransitionPolicy) :
    (∀ (createdBy : ChangedBy) (now : Nat),
      changedAtSorted (mkProcess createdBy now).history)
    ∧ (∀ (p : ProcessState) (updateOk appendOk : Bool)
        (cur req : AssessmentProcessStatus) (u : ActingUser) (now : Nat)
        (e : StatusHistoryEntry) (q : ProcessState),
        changedAtSorted p.history →
        (∀ a ∈ p.history, a.changedAt ≤ now) →
        transitionRun policy (some p) updateOk appendOk cur req u now =
          (Except.ok e, some q) →
        changedAtSorted q.history) := by
  constructor
  · intro createdBy now
    simp [mkProcess, changedAtSorted]
  · intro p updateOk appendOk cur req u now e q hsorted hnow hrun
    rcases (transitionRun_ok_iff policy p updateOk appendOk cur req u now e
        (some q)).mp hrun with ⟨_, _, _, _, _, _, hpost⟩
    rcases Option.some.inj hpost with rfl
    show changedAtSorted (p.history ++ [newEntry req now u])
    unfold changedAtSorted at hsorted ⊢
    rw [List.chain'_append]
    refine ⟨hsorted, by simp, ?_⟩
    intro x hx y hy
    rcases List.mem_getLast?_eq_getLast hx with ⟨hne, rfl⟩
    simp at hy
    subst hy
    simpa [newEntry] using hnow _ (List.getLast_mem hne)

/-- Witness for C7 at a concrete input: applying the demo transition at time
5 to the demo process (created at time 0) keeps the history timestamps
non-decreasing. -/
theorem C7_changedAt_nondecreasing_witness :
    changedAtSorted (demoProcess.history ++
      [newEntry AssessmentProcessStatus.in_self_assessment 5 demoUser]) :=
  (C7_changedAt_nondecreasing allowAll).2 demoProcess true true
    AssessmentProcessStatus.in_definition AssessmentProcessStatus.in_self_assessment
    demoUser 5 (newEntry AssessmentProcessStatus.in_self_assessment 5 demoUser)
    { status := AssessmentProcessStatus.in_self_assessment,
      history := demoProcess.history ++
        [newEntry AssessmentProcessStatus.in_self_assessment 5 demoUser] }
    (by simp [demoProcess, mkProcess, changedAtSorted]) (by decide)
    ((transitionRun_ok_iff allowAll demoProcess true true _ _ demoUser 5 _ _).mpr
      ⟨rfl, rfl, rfl, rfl, rfl, rfl, rfl⟩)

/-- A JavaScript runtime value, as far as the handlers inspect one: enough
to express JS truthiness of the `details` argument and of error fields.
`undefined` doubles as an absent optional argument. -/
inductive JsValue
  | undefined
  | null
  | bool (b : Bool)
  | num (n : Int)
  | str (s : String)
deriving DecidableEq, Repr

/-- JS truthiness: `undefined`, `null`, `false`, `0` and the empty string
are falsy; everything else modelled here is truthy. -/
def JsValue.truthy : JsValue → Bool
  | .undefined => false
  | .null => false
  | .bool b => b
  | .num n => n != 0
  | .str s => s != ""

/-- A `Response` as the handlers build one: an HTTP status and a JSON body
given as an association list of fields (header is always JSON). -/
structure Response where
  status : Nat
  body : List (String × JsValue)
deriving DecidableEq, Repr

/-- `createApiResponse` from lib/api-utils.ts: wraps the body verbatim with
the given HTTP status. -/
def createApiResponse (data : List (String × JsValue)) (status : Nat) : Response :=
  { status := status, body := data }

/-- `createErrorResponse` from lib/api-utils.ts: body `{ error: message }`,
plus a `details` field only when `details` is truthy; the status argument is
optional in TypeScript (`status = 400`), modelled as an `Option` whose
`none` stands for a call that omits it. -/
def createErrorResponse (message : String) (status : Option Nat) (details : JsValue) :
    Response :=
  let responseBody := [("error", JsValue.str message)]
  let responseBody :=
    if details.truthy then responseBody ++ [("details", details)] else responseBody
  createApiResponse responseBody (status.getD 400)

/-- The authenticated user object returned by `supabase.auth.getUser()`,
reduced to the fields the handlers read. -/
structure SupabaseUser where
  id : String
  email : String
deriving DecidableEq, Repr

/-- The outcome of `supabase.auth.getUser()`: possibly a user and possibly
an error (any truthy error value is summarized by its message). -/
structure GetUserOutcome where
  user : Option SupabaseUser
  error : Option String
deriving DecidableEq, Repr

/-- The `error` field of `AuthResult` in lib/auth-utils.ts. -/
structure AuthError where
  status : Nat
  message : String
deriving DecidableEq, Repr

/-- `AuthResult` from lib/auth-utils.ts. -/
structure AuthResult where
  user : Option SupabaseUser
  error : Option AuthError
deriving DecidableEq, Repr

/-- `requireAuth` from lib/auth-utils.ts as a function of the
`supabase.auth.getUser()` outcome: any getUser error or missing user yields
`user: null` with a 401 error and the fixed English message; otherwise the
user is returned with no error. -/
def requireAuth (outcome : GetUserOutcome) : AuthResult :=
  if outcome.error.isSome || outcome.user.isNone then
    { user := none,
      error := some
        { status := 401,
          message := "Unauthorized: User not logged in or insufficient permissions" } }
  else
    { user := outcome.user, error := none }

/-- JS `a || b` on an optional string: the default is used when the value
is absent or empty (falsy). -/
def jsOrString (s : Option String) (d : String) : String :=
  match s with
  | none => d
  | some v => if v = "" then d else v

/-- JS `a || b` on an optional numeric status: the default is used when the
value is absent or `0` (falsy). -/
def jsOrNat (n : Option Nat) (d : Nat) : Nat :=
  match n with
  | none => d
  | some v => if v = 0 then d else v

/-- `AuthenticatedUserResult` from lib/api-utils.ts: `error` is a full
`Response` rather than an error object. -/
structure AuthenticatedUserResult where
  isAuthenticated : Bool
  error : Option Response
  user : Option SupabaseUser
deriving DecidableEq, Repr

/-- `authenticateUser` from lib/api-utils.ts: wraps `requireAuth`; on
failure it builds `createErrorResponse(error?.message || "Użytkownik
niezalogowany", error?.status || 401)` with no details argument. -/
def authenticateUser (outcome : GetUserOutcome) : AuthenticatedUserResult :=
  let r := requireAuth outcome
  if r.error.isSome || r.user.isNone then
    { isAuthenticated := false,
      error := some (createErrorResponse
        (jsOrString (r.error.map AuthError.message) "Użytkownik niezalogowany")
        (some (jsOrNat (r.error.map AuthError.status) 401))
        JsValue.undefined),
      user := none }
  else
    { isAuthenticated := true, error := none, user := r.user }

/-- Modelled from the spec: the status-transition HTTP endpoint is not among
the given sources (types.ts only declares its command and response DTOs), so
its failure mapping follows §6 of the design: `NotFound→404`,
`Unauthorized→401/403`, `InvalidTransition`/`StaleState`→`409`/`422`,
distinguished from the generic `400`; `PersistenceFailure` surfaces as a
retryable 500-class error. -/
def transitionErrorHttpStatus : TransitionError → Nat
  | .NotFound => 404
  | .Unauthorized => 401
  | .InvalidTransition => 409
  | .StaleState => 409
  | .PersistenceFailure => 500

/-- Modelled from the spec: the error message shown for each failure of the
status-transition endpoint. -/
def transitionErrorMessage : TransitionError → String
  | .NotFound => "Proces nie został znaleziony"
  | .Unauthorized => "Brak uprawnień do zmiany statusu"
  | .InvalidTransition => "Nieprawidłowa zmiana statusu procesu"
  | .StaleState => "Status procesu został w międzyczasie zmieniony"
  | .PersistenceFailure => "Wystąpił błąd serwera"

/-- Modelled from the spec: the failure response of the status-transition
endpoint, built with the repository's `createErrorResponse` helper and an
explicit status, with no details argument. -/
def transitionErrorResponse (e : TransitionError) : Response :=
  createErrorResponse (transitionErrorMessage e) (some (transitionErrorHttpStatus e))
    JsValue.undefined

/-- JS falsiness of an Astro route parameter: absent or the empty string. -/
def paramFalsy : Option String → Bool
  | none => true
  | some s => s == ""

/-- The process JSON the goals-definition page fetches; `status` is kept as
the raw string the page compares against "in_definition". -/
structure FetchedProcess where
  name : String
  status : String
  startDate : String
  endDate : String
deriving DecidableEq, Repr

/-- What rendering the goals-definition page resolves to: a redirect, the
error block inside the dashboard layout, or the `GoalsDefinitionPage`
component for the given process and employee. -/
inductive GoalsDefOutcome
  | redirect (url : String)
  | renderError (message : String)
  | renderGoalsDefinition (processId employeeId : String)
deriving DecidableEq, Repr

/-- The frontmatter control flow of the goals-definition Astro page:
missing/empty route params redirect to the dashboard; a failed `auth/me`
fetch redirects to the login page; a failed process fetch throws into the
catch branch, rendered as the error block; a process whose status is not
"in_definition" redirects to the goals-view page for that process and
employee; a failed employee fetch is rendered as the error block; otherwise
the `GoalsDefinitionPage` component is rendered. -/
def goalsDefinitionPage (processId? employeeId? : Option String) (userFetchOk : Bool)
    (processFetch : Option FetchedProcess) (employeeFetchOk : Bool) : GoalsDefOutcome :=
  if paramFalsy processId? || paramFalsy employeeId? then
    GoalsDefOutcome.redirect "/dashboard"
  else if userFetchOk = false then
    GoalsDefOutcome.redirect "/login"
  else
    match processFetch with
    | none => GoalsDefOutcome.renderError "Nie udało się pobrać informacji o procesie"
    | some processData =>
      if processData.status != "in_definition" then
        GoalsDefOutcome.redirect
          ("/process/" ++ processId?.getD "" ++ "/goals-view?employeeId=" ++
            employeeId?.getD "")
      else if employeeFetchOk = false then
        GoalsDefOutcome.renderError "Nie udało się pobrać informacji o pracowniku"
      else
        GoalsDefOutcome.renderGoalsDefinition (processId?.getD "") (employeeId?.getD "")

/-- C6: every failure response of the status-transition endpoint has body
exactly of shape `{ error: <string> }`, and the HTTP status is 404 for
`NotFound`, 401 or 403 for `Unauthorized`, 409 or 422 for
`InvalidTransition` and for `StaleState` — never the generic 400 for any of
these four domain errors. -/
theorem C6_error_status_mapping :
    (transitionErrorResponse TransitionError.NotFound).status = 404
    ∧ ((transitionErrorResponse TransitionError.Unauthorized).status = 401 ∨
        (transitionErrorResponse TransitionError.Unauthorized).status = 403)
    ∧ ((transitionErrorResponse TransitionError.InvalidTransition).status = 409 ∨
        (transitionErrorResponse TransitionError.InvalidTransition).status = 422)
    ∧ ((transitionErrorResponse TransitionError.StaleState).status = 409 ∨
        (transitionErrorResponse TransitionError.StaleState).status = 422)
    ∧ (transitionErrorResponse TransitionError.NotFound).status ≠ 400
    ∧ (transitionErrorResponse TransitionError.Unauthorized).status ≠ 400
    ∧ (transitionErrorResponse TransitionError.InvalidTransition).status ≠ 400
    ∧ (transitionErrorResponse TransitionError.StaleState).status ≠ 400
    ∧ (∀ e : TransitionError, (transitionErrorResponse e).body =
        [("error", JsValue.str (transitionErrorMessage e))]) := by
  refine ⟨rfl, Or.inl rfl, Or.inl rfl, Or.inl rfl, by decide, by decide, by decide,
    by decide, ?_⟩
  intro e
  cases e <;> rfl

/-- C8: `authenticateUser` reports an authenticated user with no error
response exactly when `requireAuth` yields a user and no error; in every
other case it yields `user = null` and an error `Response` whose status is
`requireAuth`'s error status (401 when absent) and whose body `error` field
is `requireAuth`'s error message (the default Polish message when absent). -/
theorem C8_authenticateUser_wraps_requireAuth (outcome : GetUserOutcome) :
    (((authenticateUser outcome).isAuthenticated = true ∧
        (authenticateUser outcome).error = none) ↔
      ((requireAuth outcome).user.isSome ∧ (requireAuth outcome).error = none))
    ∧ (((requireAuth outcome).user.isNone ∨ (requireAuth outcome).error.isSome) →
        (authenticateUser outcome).user = none
        ∧ ∃ resp, (authenticateUser outcome).error = some resp
            ∧ resp.status = (((requireAuth outcome).error.map AuthError.status).getD 401)
            ∧ resp.body.lookup "error" =
              some (JsValue.str
                (((requireAuth outcome).error.map AuthError.message).getD
                  "Użytkownik niezalogowany"))) := by
  rcases outcome with ⟨user, error⟩
  cases user <;> cases error <;>
    simp [authenticateUser, requireAuth, createErrorResponse, createApiResponse,
      jsOrString, jsOrNat, JsValue.truthy]

/-- Witness for C8 at a concrete input: with no user and no getUser error,
`authenticateUser` yields no user and a 401 response carrying the
`requireAuth` error message. -/
theorem C8_authenticateUser_wraps_requireAuth_witness :
    (authenticateUser { user := none, error := none }).user = none
    ∧ ∃ resp,
        (authenticateUser { user := none, error := none }).error = some resp
        ∧ resp.status =
          (((requireAuth { user := none, error := none }).error.map AuthError.status).getD 401)
        ∧ resp.body.lookup "error" =
          some (JsValue.str
            (((requireAuth { user := none, error := none }).error.map AuthError.message).getD
              "Użytkownik niezalogowany")) :=
  (C8_authenticateUser_wraps_requireAuth { user := none, error := none }).2
    (Or.inl (by decide))

/-- C9: whenever the goals-definition page fetches a process whose status is
not "in_definition", it redirects to the goals-view page of that process
and employee and never renders the goal-definition UI; in general the
goal-definition UI is rendered only when the fetched status is
"in_definition". -/
theorem C9_goals_definition_guard (pid eid : String) (processData : FetchedProcess)
    (employeeFetchOk : Bool) (hpid : pid ≠ "") (heid : eid ≠ "")
    (hstatus : processData.status ≠ "in_definition") :
    goalsDefinitionPage (some pid) (some eid) true (some processData) employeeFetchOk =
      GoalsDefOutcome.redirect ("/process/" ++ pid ++ "/goals-view?employeeId=" ++ eid)
    ∧ (∀ (processId? employeeId? : Option String) (userFetchOk : Bool)
        (processFetch : Option FetchedProcess) (eOk : Bool) (p e : String),
        goalsDefinitionPage processId? employeeId? userFetchOk processFetch eOk =
          GoalsDefOutcome.renderGoalsDefinition p e →
        ∃ pd, processFetch = some pd ∧ pd.status = "in_definition") := by
  constructor
  · unfold goalsDefinitionPage
    rw [if_neg (by simp [paramFalsy, hpid, heid]), if_neg (by simp)]
    simp only [Option.getD_some]
    rw [if_pos (by simpa using hstatus)]
  · intro processId? employeeId? userFetchOk processFetch eOk p e h
    unfold goalsDefinitionPage at h
    by_cases hparams : (paramFalsy processId? || paramFalsy employeeId?) = true
    · rw [if_pos hparams] at h
      exact absurd h (by simp)
    · rw [if_neg hparams] at h
      by_cases huser : userFetchOk = false
      · rw [if_pos huser] at h
        exact absurd h (by simp)
      · rw [if_neg huser] at h
        cases processFetch with
        | none => exact absurd h (by simp)
        | some pd =>
          refine ⟨pd, rfl, ?_⟩
          simp only at h
          by_cases hst : (pd.status != "in_definition") = true
          · rw [if_pos hst] at h
            exact absurd h (by simp)
          · simpa using hst

/-- A concrete fetched process in self-assessment, used to instantiate the
page-guard theorem. -/
def demoFetchedProcess : FetchedProcess :=
  { name := "Proces 2024", status := "in_self_assessment",
    startDate := "2024-01-01", endDate := "2024-12-31" }

/-- Witness for C9 at a concrete input: a process in self-assessment makes
the page redirect to the goals-view URL. -/
theorem C9_goals_definition_guard_witness :
    goalsDefinitionPage (some "p1") (some "e1") true (some demoFetchedProcess) true =
      GoalsDefOutcome.redirect "/process/p1/goals-view?employeeId=e1" :=
  (C9_goals_definition_guard "p1" "e1" demoFetchedProcess true
      (by decide) (by decide) (by decide)).1

/-- C10: `createErrorResponse` always maps the `error` key to the message,
includes the `details` key exactly when the details argument is truthy
(falsy details such as `0`, the empty string or `false` are dropped), and
its HTTP status is the supplied one, defaulting to 400 when not supplied. -/
theorem C10_createErrorResponse_shape (message : String) (status : Option Nat)
    (details : JsValue) :
    (createErrorResponse message status details).body.lookup "error" =
        some (JsValue.str message)
    ∧ (((createErrorResponse message status details).body.lookup "details").isSome ↔
        details.truthy = true)
    ∧ (createErrorResponse message status details).status = status.getD 400
    ∧ (createErrorResponse message none details).status = 400 := by
  refine ⟨?_, ?_, rfl, rfl⟩
  · unfold createErrorResponse createApiResponse
    by_cases h : details.truthy = true <;> simp [h, List.lookup]
  · unfold createErrorResponse createApiResponse
    by_cases h : details.truthy = true <;> simp [h, List.lookup]

end EAS
